import Mathlib

/-!
Shallow embedding of the anomaly-detection engine of
`mö+db_deneme/anomaly_detector.py`.

Modelling conventions:
- Python `float` signal values are embedded as `ℚ` (all thresholds and test
  values in the source are exact decimals).
- Python dicts keyed by strings are embedded as association lists with
  first-match lookup and in-place overwrite (`alookup` / `aset`), which
  reproduces dict insertion-order semantics for the operations used.
- Mutation plus exceptions are embedded by explicit state passing: each
  stateful procedure returns the state as mutated up to the point of a raised
  exception, together with the list of anomaly records written to the sink so
  far and an `Except String Unit` that is `.error msg` when the Python code
  would raise (`KeyError` on a direct dict index, sklearn `NotFittedError` on
  predicting with an unfitted model).
- `print`-only diagnostics carry no sink record; where a family only prints,
  the embedding returns the diagnostic tags that would be printed
  (`check_signal_based_anomalies`) so the flagged conditions stay observable.
  Pure progress bookkeeping that feeds only prints (`training_progress`) is
  omitted.
- The IsolationForest object is embedded as a fitted/unfitted flag; the
  decision function of a fitted forest is an uninterpreted parameter
  `oracle : String → Vec3 → Int` (the source only branches on whether
  `predict` returns -1).
- The filesystem of persisted model artifacts is a triple of artifact states,
  one per message type, mirroring `model_paths`.
-/

/-- Geographies, from the `Geography` enum. -/
inductive Geography where
  | rainy
  | mountainous
  | urban
  | highway
  | hot
  | snowy
  deriving DecidableEq, Repr

/-- A signal snapshot: one decoded message's named numeric values. -/
abbrev Snapshot := List (String × ℚ)

/-- Three-dimensional feature vector fed to an outlier model. -/
abbrev Vec3 := ℚ × ℚ × ℚ

/-- First-match association-list lookup (Python dict `d[k]` / `d.get(k)`). -/
def alookup {α : Type} : List (String × α) → String → Option α
  | [], _ => none
  | (k, v) :: rest, key => if k = key then some v else alookup rest key

/-- Association-list overwrite (Python dict `d[k] = v`): replaces the value at
an existing key in place, otherwise appends the binding at the end, matching
dict insertion order. -/
def aset {α : Type} : List (String × α) → String → α → List (String × α)
  | [], key, v => [(key, v)]
  | (k, w) :: rest, key, v =>
      if k = key then (k, v) :: rest else (k, w) :: aset rest key v

/-- `signals[k]` as an optional value. -/
def sGet (s : Snapshot) (k : String) : Option ℚ :=
  alookup s k

/-- `signals.get(k, d)`. -/
def sGetD (s : Snapshot) (k : String) (d : ℚ) : ℚ :=
  (alookup s k).getD d

/-- `signals[k] = v`. -/
def sSet (s : Snapshot) (k : String) (v : ℚ) : Snapshot :=
  aset s k v

/-- Python `int(x)` on a float: truncation toward zero. -/
def py_int (q : ℚ) : ℤ :=
  if 0 ≤ q then ⌊q⌋ else ⌈q⌉

/-- Python `int(x)` re-stored into a float-valued dict slot. -/
def py_int_q (q : ℚ) : ℚ :=
  (py_int q : ℚ)

/-- One anomaly record as written to the sink by `_save_anomaly_to_influxdb`
(the free-text detail string is not modelled; the dict lookups its
interpolation performs are modelled at the call sites where they can fail). -/
structure Anomaly where
  vehicle_id : String
  anomaly_type : String
  message_type : String
  geography : Geography
  severity : String
  signals : Snapshot
  deriving DecidableEq, Repr

/-- Builds the anomaly record with the constant severity used by the source. -/
def mkAnomaly (vid ty msg : String) (geo : Geography) (sig : Snapshot) : Anomaly :=
  ⟨vid, ty, msg, geo, "warning", sig⟩

/-- `VehicleState` dataclass. -/
structure VehicleState where
  vehicle_id : String
  last_update : ℚ
  last_values : List (String × Snapshot)
  geography : Geography
  deriving DecidableEq, Repr

/-- Whether one persisted model artifact file is absent, present (holding a
model whose fit status is the recorded flag), or present but unreadable. -/
inductive ArtifactState where
  | absent
  | file (fitted : Bool)
  | corrupt
  deriving DecidableEq, Repr

/-- The three model artifact paths of `model_paths`, one slot per type. -/
structure FS where
  engine : ArtifactState
  vehicle : ArtifactState
  climate : ArtifactState
  deriving DecidableEq, Repr

/-- An IsolationForest object, reduced to whether `fit` has been applied. -/
structure IFModel where
  fitted : Bool
  deriving DecidableEq, Repr

/-- `self.isolation_forests`: one model per message type. -/
structure ModelSet where
  engine : IFModel
  vehicle : IFModel
  climate : IFModel
  deriving DecidableEq, Repr

/-- `isolation_forests[name]` (only ever applied to the three known types). -/
def get_model (m : ModelSet) (name : String) : IFModel :=
  if name = "EngineData" then m.engine
  else if name = "VehicleData" then m.vehicle
  else if name = "ClimateControl" then m.climate
  else ⟨false⟩

/-- The mutable state of `AnomalyDetector`. -/
structure DetectorState where
  vehicle_states : List (String × VehicleState)
  collected_data : List (String × List Vec3)
  isolation_forests : ModelSet
  is_model_trained : Bool
  fs : FS
  deriving DecidableEq, Repr

/-- `self.min_samples_for_training`. -/
def min_samples_for_training : ℕ := 500

/-- The keys of `model_paths`. -/
def known_message_types : List String :=
  ["EngineData", "VehicleData", "ClimateControl"]

/-- `_initialize_models`: per type, load an existing artifact (a corrupt one
raises, is caught, and is replaced by a fresh unfitted model) or create a
fresh unfitted model. -/
def initialize_models (fs : FS) : ModelSet :=
  let ld : ArtifactState → IFModel := fun a =>
    match a with
    | .absent => ⟨false⟩
    | .file b => ⟨b⟩
    | .corrupt => ⟨false⟩
  ⟨ld fs.engine, ld fs.vehicle, ld fs.climate⟩

/-- `_check_trained_models`: true iff every artifact path exists on disk
(`os.path.exists`), regardless of whether it could be loaded. -/
def check_trained_models (fs : FS) : Bool :=
  fs.engine ≠ ArtifactState.absent ∧ fs.vehicle ≠ ArtifactState.absent ∧
    fs.climate ≠ ArtifactState.absent

/-- `AnomalyDetector.__init__` state (InfluxDB handles are external). -/
def init_detector (fs : FS) : DetectorState :=
  { vehicle_states := []
    collected_data := []
    isolation_forests := initialize_models fs
    is_model_trained := check_trained_models fs
    fs := fs }

/-- `_prepare_data_for_isolation_forest`: fixed 3-dimensional projection with
missing keys defaulting to 0; an unknown type yields an empty array. -/
def prepare_data_for_isolation_forest (message_name : String) (signals : Snapshot) :
    Option Vec3 :=
  if message_name = "EngineData" then
    some (sGetD signals "EngineSpeed" 0, sGetD signals "EngineTemp" 0,
      sGetD signals "BatteryLevel" 0)
  else if message_name = "VehicleData" then
    some (sGetD signals "Speed" 0, sGetD signals "GearPosition" 0,
      sGetD signals "BatteryVoltage" 0)
  else if message_name = "ClimateControl" then
    some (sGetD signals "CabinTemp" 0, sGetD signals "FanSpeed" 0,
      sGetD signals "ACStatus" 0)
  else none

/-- `self.collected_data[message_name].append(vec)` on the defaultdict. -/
def append_collected (cd : List (String × List Vec3)) (name : String) (v : Vec3) :
    List (String × List Vec3) :=
  match alookup cd name with
  | some l => aset cd name (l ++ [v])
  | none => cd ++ [(name, [v])]

/-- `isolation_forests[name].fit(...)` on the model set. -/
def set_model_fitted (m : ModelSet) (name : String) : ModelSet :=
  if name = "EngineData" then { m with engine := ⟨true⟩ }
  else if name = "VehicleData" then { m with vehicle := ⟨true⟩ }
  else if name = "ClimateControl" then { m with climate := ⟨true⟩ }
  else m

/-- The training loop body: fit the model of each message type that has a
sample buffer, in buffer order. -/
def fit_collected (m : ModelSet) (names : List String) : ModelSet :=
  names.foldl set_model_fitted m

/-- `_save_models`: dumps every model in `isolation_forests` (all three),
fitted or not, overwriting the three artifact slots. -/
def save_models (m : ModelSet) : FS :=
  ⟨ArtifactState.file m.engine.fitted, ArtifactState.file m.vehicle.fitted,
    ArtifactState.file m.climate.fitted⟩

/-- `_train_models_if_needed`: no-op once trained; otherwise, when every
buffer currently present in `collected_data` holds at least
`min_samples_for_training` samples, fits the model of each buffered type,
persists all three models, and flips the global trained flag. -/
def train_models_if_needed (st : DetectorState) : DetectorState :=
  if st.is_model_trained then st
  else if st.collected_data.all
      (fun p => decide (min_samples_for_training ≤ p.2.length)) then
    let models := fit_collected st.isolation_forests (st.collected_data.map (·.1))
    { st with
        isolation_forests := models
        fs := save_models models
        is_model_trained := true }
  else st

/-- Lines 203–205: in-place integer coercion of the caller's ClimateControl
snapshot; a missing key raises after any coercion already performed. -/
def coerce_climate_signals (message_name : String) (signals : Snapshot) :
    Snapshot × Except String Unit :=
  if message_name = "ClimateControl" then
    match sGet signals "ACStatus" with
    | none => (signals, Except.error "KeyError: ACStatus")
    | some a =>
      let s1 := sSet signals "ACStatus" (py_int_q a)
      match sGet s1 "FanSpeed" with
      | none => (s1, Except.error "KeyError: FanSpeed")
      | some f => (sSet s1 "FanSpeed" (py_int_q f), Except.ok ())
  else (signals, Except.ok ())

/-- The direct dict indexing performed by the possible-cause report printed
after a positive isolation-forest prediction (lines 234–256); only the
lookups that are not short-circuited away and not guaranteed present can
raise. -/
def reason_analysis (message_name : String) (signals : Snapshot) :
    Except String Unit :=
  if message_name = "ClimateControl" then
    match sGet signals "CabinTemp" with
    | none => Except.error "KeyError: CabinTemp"
    | some _ => Except.ok ()
  else if message_name = "EngineData" then
    match sGet signals "EngineTemp" with
    | none => Except.error "KeyError: EngineTemp"
    | some _ =>
      match sGet signals "EngineSpeed" with
      | none => Except.error "KeyError: EngineSpeed"
      | some _ =>
        match sGet signals "BatteryLevel" with
        | none => Except.error "KeyError: BatteryLevel"
        | some _ => Except.ok ()
  else if message_name = "VehicleData" then
    match sGet signals "Speed" with
    | none => Except.error "KeyError: Speed"
    | some sp =>
      if sp > 60 then
        match sGet signals "GearPosition" with
        | none => Except.error "KeyError: GearPosition"
        | some _ =>
          match sGet signals "BatteryVoltage" with
          | none => Except.error "KeyError: BatteryVoltage"
          | some _ => Except.ok ()
      else
        match sGet signals "BatteryVoltage" with
        | none => Except.error "KeyError: BatteryVoltage"
        | some _ => Except.ok ()
  else Except.ok ()

/-- `_check_isolation_forest_anomalies` after the coercion step: collect the
projected sample, maybe train, and when globally trained predict with the
type's model (raising sklearn's error if that model was never fitted), writing
one isolation-forest anomaly on a -1 prediction before printing the
possible-cause report. -/
def iso_core (oracle : String → Vec3 → Int) (message_name : String)
    (signals : Snapshot) (vehicle_id : String) (st : DetectorState) :
    DetectorState × List Anomaly × Except String Unit :=
  match prepare_data_for_isolation_forest message_name signals with
  | none => (st, [], Except.ok ())
  | some v =>
    let st1 := { st with
      collected_data := append_collected st.collected_data message_name v }
    let st2 := train_models_if_needed st1
    if st2.is_model_trained then
      if (get_model st2.isolation_forests message_name).fitted then
        if oracle message_name v = -1 then
          match alookup st2.vehicle_states vehicle_id with
          | none => (st2, [], Except.error "KeyError: vehicle_id")
          | some vs =>
            (st2, [mkAnomaly vehicle_id "isolation_forest" message_name
              vs.geography signals], reason_analysis message_name signals)
        else (st2, [], Except.ok ())
      else (st2, [], Except.error "NotFittedError")
    else (st2, [], Except.ok ())

/-- `_check_isolation_forest_anomalies`: coerce ClimateControl signals in
place, then run the collection/training/prediction core. Returns the
(possibly mutated) snapshot object alongside the detector state. -/
def check_isolation_forest_anomalies (oracle : String → Vec3 → Int)
    (message_name : String) (signals : Snapshot) (vehicle_id : String)
    (st : DetectorState) :
    Snapshot × DetectorState × List Anomaly × Except String Unit :=
  match coerce_climate_signals message_name signals with
  | (s1, Except.error e) => (s1, st, [], Except.error e)
  | (s1, Except.ok ()) =>
    let r := iso_core oracle message_name s1 vehicle_id st
    (s1, r.1, r.2.1, r.2.2)

/-- `_get_expected_gear`. -/
def get_expected_gear (speed : ℚ) : ℤ :=
  if speed = 0 then 1
  else if speed ≤ 20 then 1
  else if speed ≤ 40 then 2
  else if speed ≤ 70 then 3
  else if speed ≤ 100 then 4
  else if speed ≤ 150 then 5
  else 6

/-- `_check_signal_based_anomalies`: print-only diagnostics; the returned
tags name the print blocks that fire, in program order. -/
def check_signal_based_anomalies (signals : Snapshot) (message_name : String) :
    List String :=
  if message_name = "EngineData" then
    let t1 := if sGetD signals "EngineTemp" 0 > 120
      then ["critical_engine_temperature"] else []
    let battery_level := sGetD signals "BatteryLevel" 0
    let t2 := if battery_level < 20 then ["critical_battery_level"]
      else if battery_level < 30 then ["low_battery_level"] else []
    t1 ++ t2
  else if message_name = "VehicleData" then
    let speed := sGetD signals "Speed" 0
    let gear := sGetD signals "GearPosition" 1
    if speed > 0 then
      let expected_gear := get_expected_gear speed
      let current_gear := py_int gear
      let t1 := if |expected_gear - current_gear| > 1
        then ["gear_speed_mismatch"] else []
      let t2 := if speed > 100 ∧ current_gear ≤ 2 then ["critical_gear_mismatch"]
        else if speed < 20 ∧ 3 ≤ current_gear then ["critical_gear_mismatch"]
        else []
      t1 ++ t2
    else []
  else if message_name = "ClimateControl" then
    let cabin_temp := sGetD signals "CabinTemp" 20
    let ac_status := sGetD signals "ACStatus" 0
    if cabin_temp < 10 then
      ["low_cabin_temperature_critical"] ++
        (if ac_status = 0 then ["ac_heating_warning"] else [])
    else if cabin_temp > 30 then
      ["high_cabin_temperature_critical"] ++
        (if ac_status = 0 then ["ac_cooling_warning"] else [])
    else []
  else []

/-- `_check_geography_based_anomalies`: exactly one geography branch runs; the
Highway branch's detail string indexes `signals['Speed']` directly and is the
only place in this family where a missing key raises. -/
def check_geography_based_anomalies (geography : Geography) (vehicle_id : String)
    (message_name : String) (signals : Snapshot) :
    List Anomaly × Except String Unit :=
  match geography with
  | .rainy =>
    ((if message_name = "VehicleData" ∧ sGetD signals "Speed" 0 > 70 then
        [mkAnomaly vehicle_id "high_speed_in_rain" message_name geography signals]
      else []), Except.ok ())
  | .mountainous =>
    ((if message_name = "EngineData" ∧ sGetD signals "EngineTemp" 0 > 95 then
        [mkAnomaly vehicle_id "high_temperature_in_mountainous" message_name
          geography signals]
      else []) ++
     (if message_name = "VehicleData" ∧ sGetD signals "Speed" 0 > 70 then
        [mkAnomaly vehicle_id "high_speed_in_mountainous" message_name
          geography signals]
      else []), Except.ok ())
  | .hot =>
    ((if message_name = "EngineData" ∧ sGetD signals "EngineTemp" 0 > 100 then
        [mkAnomaly vehicle_id "high_temperature_in_hot" message_name
          geography signals]
      else []) ++
     (if message_name = "ClimateControl" then
        (if sGetD signals "CabinTemp" 20 > 28 then
          [mkAnomaly vehicle_id "high_cabin_temperature" message_name
            geography signals]
         else []) ++
        (if sGetD signals "ACStatus" 1 = 0 then
          [mkAnomaly vehicle_id "ac_off_in_hot" message_name geography signals]
         else [])
      else []), Except.ok ())
  | .snowy =>
    ((if message_name = "VehicleData" ∧ sGetD signals "Speed" 0 > 50 then
        [mkAnomaly vehicle_id "high_speed_in_snow" message_name geography signals]
      else []) ++
     (if message_name = "ClimateControl" ∧ sGetD signals "CabinTemp" 20 < 18 then
        [mkAnomaly vehicle_id "low_cabin_temperature" message_name
          geography signals]
      else []), Except.ok ())
  | .urban =>
    ((if message_name = "VehicleData" ∧ sGetD signals "Speed" 0 > 60 then
        [mkAnomaly vehicle_id "high_speed_in_urban" message_name geography signals]
      else []) ++
     (if message_name = "EngineData" ∧ sGetD signals "EngineSpeed" 0 > 4000 then
        [mkAnomaly vehicle_id "high_engine_speed" message_name geography signals]
      else []), Except.ok ())
  | .highway =>
    if message_name = "VehicleData" ∧ sGetD signals "Speed" 0 < 60 then
      match sGet signals "Speed" with
      | some _ =>
        ([mkAnomaly vehicle_id "low_speed_in_highway" message_name
          geography signals], Except.ok ())
      | none => ([], Except.error "KeyError: Speed")
    else ([], Except.ok ())

/-- `_check_temporal_anomalies`: direct dict indexing throughout, so any
missing key of the per-type signal list raises, after any sink write already
performed by an earlier block of the same call. -/
def check_temporal_anomalies (vehicle_id : String) (geography : Geography)
    (last_signals : Snapshot) (message_name : String) (signals : Snapshot) :
    List Anomaly × Except String Unit :=
  if message_name = "VehicleData" then
    match sGet signals "Speed" with
    | none => ([], Except.error "KeyError: Speed")
    | some sp =>
      match sGet last_signals "Speed" with
      | none => ([], Except.error "KeyError: Speed")
      | some lsp =>
        let a1 := if |sp - lsp| > 20 then
            [mkAnomaly vehicle_id "sudden_speed_change" message_name
              geography signals]
          else []
        match sGet signals "GearPosition", sGet last_signals "GearPosition" with
        | some _, some _ => (a1, Except.ok ())
        | _, _ => (a1, Except.error "KeyError: GearPosition")
  else if message_name = "EngineData" then
    match sGet signals "EngineTemp" with
    | none => ([], Except.error "KeyError: EngineTemp")
    | some t =>
      match sGet last_signals "EngineTemp" with
      | none => ([], Except.error "KeyError: EngineTemp")
      | some lt =>
        let a1 := if |t - lt| > 15 then
            [mkAnomaly vehicle_id "sudden_temperature_change" message_name
              geography signals]
          else []
        match sGet signals "EngineSpeed", sGet last_signals "EngineSpeed" with
        | some _, some _ =>
          match sGet signals "BatteryLevel", sGet last_signals "BatteryLevel" with
          | some _, some _ => (a1, Except.ok ())
          | _, _ => (a1, Except.error "KeyError: BatteryLevel")
        | _, _ => (a1, Except.error "KeyError: EngineSpeed")
  else if message_name = "ClimateControl" then
    match sGet signals "CabinTemp", sGet last_signals "CabinTemp" with
    | some _, some _ => ([], Except.ok ())
    | _, _ => ([], Except.error "KeyError: CabinTemp")
  else ([], Except.ok ())

/-- Lines 275–281 of `update_vehicle_state`: create the vehicle entry with the
current time, empty last values and the supplied geography when absent. -/
def ensure_vehicle (st : DetectorState) (vehicle_id : String) (geography : Geography)
    (now : ℚ) : DetectorState :=
  match alookup st.vehicle_states vehicle_id with
  | some _ => st
  | none => { st with vehicle_states :=
      st.vehicle_states ++ [(vehicle_id, ⟨vehicle_id, now, [], geography⟩)] }

/-- Lines 287–298 of `update_vehicle_state`: store the new geography, then
either record a first-of-type snapshot or run the three rule families before
overwriting the stored snapshot and the update time. `al` carries the sink
records already written by the isolation-forest check of the same call. -/
def rule_phase (st1 : DetectorState) (vehicle_id message_name : String)
    (sig1 : Snapshot) (geography : Geography) (now : ℚ) (al : List Anomaly) :
    DetectorState × List Anomaly × Except String Unit :=
  match alookup st1.vehicle_states vehicle_id with
  | none => (st1, al, Except.error "KeyError: vehicle_id")
  | some vs =>
    match alookup vs.last_values message_name with
    | none =>
      ({ st1 with
          vehicle_states := aset
            (aset st1.vehicle_states vehicle_id { vs with geography := geography })
            vehicle_id
            { vs with
                geography := geography
                last_values := aset vs.last_values message_name sig1 } },
        al, Except.ok ())
    | some last_signals =>
      match check_temporal_anomalies vehicle_id geography last_signals
          message_name sig1 with
      | (ta, Except.error e) =>
        ({ st1 with
            vehicle_states := aset st1.vehicle_states vehicle_id
              { vs with geography := geography } },
          al ++ ta, Except.error e)
      | (ta, Except.ok ()) =>
        match check_geography_based_anomalies geography vehicle_id
            message_name sig1 with
        | (ga, Except.error e) =>
          ({ st1 with
              vehicle_states := aset st1.vehicle_states vehicle_id
                { vs with geography := geography } },
            al ++ ta ++ ga, Except.error e)
        | (ga, Except.ok ()) =>
          let _diag := check_signal_based_anomalies sig1 message_name
          ({ st1 with
              vehicle_states := aset
                (aset st1.vehicle_states vehicle_id
                  { vs with geography := geography })
                vehicle_id
                { vs with
                    geography := geography
                    last_values := aset vs.last_values message_name sig1
                    last_update := now } },
            al ++ ta ++ ga, Except.ok ())

/-- `update_vehicle_state`: create the vehicle entry if absent, run the
isolation-forest check on the (possibly mutated) snapshot, then the rule
phase; an exception raised inside the isolation-forest check propagates with
the state as mutated so far. -/
def update_vehicle_state (oracle : String → Vec3 → Int) (st : DetectorState)
    (vehicle_id message_name : String) (signals : Snapshot)
    (geography : Geography) (now : ℚ) :
    DetectorState × List Anomaly × Except String Unit :=
  match check_isolation_forest_anomalies oracle message_name signals vehicle_id
      (ensure_vehicle st vehicle_id geography now) with
  | (_, st1, al, Except.error e) => (st1, al, Except.error e)
  | (sig1, st1, al, Except.ok ()) =>
    rule_phase st1 vehicle_id message_name sig1 geography now al

/-- Whether this vehicle already holds a previous snapshot of this type. -/
def has_last (st : DetectorState) (vehicle_id message_name : String) : Bool :=
  match alookup st.vehicle_states vehicle_id with
  | none => false
  | some vs => (alookup vs.last_values message_name).isSome

/-- Length of one type's sample-collection buffer. -/
def buf_len (st : DetectorState) (name : String) : ℕ :=
  ((alookup st.collected_data name).getD []).length

/-- The anomaly-type tags of a produced record list. -/
def anomaly_types (l : List Anomaly) : List String :=
  l.map Anomaly.anomaly_type

/-! ## Concrete fixtures used by the counterexamples and witnesses -/

/-- A prediction oracle that never reports an outlier. -/
def oracle0 : String → Vec3 → Int := fun _ _ => 1

/-- Fresh start: no persisted model artifacts. -/
def fs_absent : FS :=
  ⟨ArtifactState.absent, ArtifactState.absent, ArtifactState.absent⟩

/-- All three artifact files exist but the EngineData one is unreadable. -/
def fs_corrupt_engine : FS :=
  ⟨ArtifactState.corrupt, ArtifactState.file true, ArtifactState.file true⟩

/-- A well-formed EngineData snapshot. -/
def engine_snap : Snapshot :=
  [("EngineSpeed", 1000), ("EngineTemp", 90), ("BatteryLevel", 80)]

/-- Feature projection of `engine_snap`. -/
def engine_vec : Vec3 := (1000, 90, 80)

/-- A well-formed ClimateControl snapshot (all values integral, so the
in-place integer coercion leaves it unchanged). -/
def climate_snap : Snapshot :=
  [("CabinTemp", 32), ("ACStatus", 0), ("FanSpeed", 1)]

/-- Detector state after `n` EngineData observations (and nothing else) from
a fresh start. -/
def engine_obs : ℕ → DetectorState
  | 0 => init_detector fs_absent
  | n + 1 =>
    (check_isolation_forest_anomalies oracle0 "EngineData" engine_snap "V1"
      (engine_obs n)).2.1

/-! ## Association-list and snapshot lemmas -/

theorem alookup_aset_self {α : Type} (l : List (String × α)) (k : String) (v : α) :
    alookup (aset l k v) k = some v := by
  induction l with
  | nil => simp [aset, alookup]
  | cons p rest ih =>
    by_cases h : p.1 = k <;> simp [aset, alookup, h, ih]

theorem alookup_aset_ne {α : Type} (l : List (String × α)) (k key : String) (v : α)
    (h : k ≠ key) : alookup (aset l key v) k = alookup l k := by
  induction l with
  | nil => simp [aset, alookup, Ne.symm h]
  | cons p rest ih =>
    by_cases hp : p.1 = key
    · simp [aset, alookup, hp, Ne.symm h]
    · simp [aset, alookup, hp, ih]

theorem sGet_sSet_self (s : Snapshot) (k : String) (v : ℚ) :
    sGet (sSet s k v) k = some v :=
  alookup_aset_self s k v

theorem sGet_sSet_ne (s : Snapshot) (k key : String) (v : ℚ) (h : k ≠ key) :
    sGet (sSet s key v) k = sGet s k :=
  alookup_aset_ne s k key v h

theorem sGetD_sSet_self (s : Snapshot) (k : String) (v d : ℚ) :
    sGetD (sSet s k v) k d = v := by
  simp [sGetD, sSet, alookup_aset_self]

theorem sGetD_sSet_ne (s : Snapshot) (k key : String) (v d : ℚ) (h : k ≠ key) :
    sGetD (sSet s key v) k d = sGetD s k d := by
  simp [sGetD, sSet, alookup_aset_ne _ _ _ _ h]

theorem alookup_append_right {α : Type} (l : List (String × α)) (k : String) (v : α)
    (h : alookup l k = none) : alookup (l ++ [(k, v)]) k = some v := by
  induction l with
  | nil => simp [alookup]
  | cons p rest ih =>
    by_cases hp : p.1 = k
    · simp [alookup, hp] at h
    · simp [alookup, hp] at h ⊢
      exact ih h

/-! ## Buffer lemmas -/

theorem alookup_append_collected_self (cd : List (String × List Vec3))
    (name : String) (v : Vec3) :
    alookup (append_collected cd name v) name =
      some (((alookup cd name).getD []) ++ [v]) := by
  unfold append_collected
  cases h : alookup cd name with
  | none => simp [alookup_append_right cd name _ h]
  | some l => simp [alookup_aset_self]

theorem alookup_append_ne {α : Type} (l : List (String × α)) (k key : String) (v : α)
    (h : k ≠ key) : alookup (l ++ [(key, v)]) k = alookup l k := by
  induction l with
  | nil => simp [alookup, Ne.symm h]
  | cons p rest ih =>
    by_cases hp : p.1 = k <;> simp [alookup, hp, ih]

theorem alookup_append_collected_ne (cd : List (String × List Vec3))
    (name other : String) (v : Vec3) (h : other ≠ name) :
    alookup (append_collected cd name v) other = alookup cd other := by
  unfold append_collected
  cases hc : alookup cd name with
  | none => exact alookup_append_ne cd other name _ h
  | some l => exact alookup_aset_ne cd other name _ h

/-! ## Preservation lemmas for the training and observation steps -/

theorem train_collected (st : DetectorState) :
    (train_models_if_needed st).collected_data = st.collected_data := by
  unfold train_models_if_needed
  split_ifs <;> rfl

theorem train_vehicle_states (st : DetectorState) :
    (train_models_if_needed st).vehicle_states = st.vehicle_states := by
  unfold train_models_if_needed
  split_ifs <;> rfl

theorem iso_core_state (oracle : String → Vec3 → Int)
    (name : String) (sig : Snapshot) (vid : String) (st : DetectorState) :
    (iso_core oracle name sig vid st).1 =
      match prepare_data_for_isolation_forest name sig with
      | none => st
      | some v => train_models_if_needed
          { st with collected_data := append_collected st.collected_data name v } := by
  cases hp : prepare_data_for_isolation_forest name sig with
  | none => simp [iso_core, hp]
  | some v =>
    simp only [iso_core, hp]
    split_ifs <;> (try split) <;> rfl

theorem iso_core_vehicle_states (oracle : String → Vec3 → Int)
    (name : String) (sig : Snapshot) (vid : String) (st : DetectorState) :
    (iso_core oracle name sig vid st).1.vehicle_states = st.vehicle_states := by
  rw [iso_core_state]
  cases hp : prepare_data_for_isolation_forest name sig <;>
    simp [train_vehicle_states]

theorem iso_core_collected (oracle : String → Vec3 → Int)
    (name : String) (sig : Snapshot) (vid : String) (st : DetectorState)
    (v : Vec3) (hprep : prepare_data_for_isolation_forest name sig = some v) :
    (iso_core oracle name sig vid st).1.collected_data =
      append_collected st.collected_data name v := by
  rw [iso_core_state, hprep, train_collected]

theorem iso_core_anomalies (oracle : String → Vec3 → Int)
    (name : String) (sig : Snapshot) (vid : String) (st : DetectorState) :
    ∀ a ∈ (iso_core oracle name sig vid st).2.1,
      a.anomaly_type = "isolation_forest" ∧ a.signals = sig := by
  cases hp : prepare_data_for_isolation_forest name sig with
  | none => simp [iso_core, hp]
  | some v =>
    simp only [iso_core, hp]
    split_ifs <;> (try split) <;> simp [mkAnomaly]

theorem check_iso_snapshot (oracle : String → Vec3 → Int)
    (name : String) (sig : Snapshot) (vid : String) (st : DetectorState) :
    (check_isolation_forest_anomalies oracle name sig vid st).1 =
      (coerce_climate_signals name sig).1 := by
  unfold check_isolation_forest_anomalies
  rcases hc : coerce_climate_signals name sig with ⟨s1, r⟩
  cases r with
  | error e => simp
  | ok u => cases u; simp

theorem check_iso_vehicle_states (oracle : String → Vec3 → Int)
    (name : String) (sig : Snapshot) (vid : String) (st : DetectorState) :
    (check_isolation_forest_anomalies oracle name sig vid st).2.1.vehicle_states =
      st.vehicle_states := by
  unfold check_isolation_forest_anomalies
  rcases hc : coerce_climate_signals name sig with ⟨s1, r⟩
  cases r with
  | error e => simp
  | ok u => cases u; simp [iso_core_vehicle_states]

theorem check_iso_anomalies (oracle : String → Vec3 → Int)
    (name : String) (sig : Snapshot) (vid : String) (st : DetectorState) :
    ∀ a ∈ (check_isolation_forest_anomalies oracle name sig vid st).2.2.1,
      a.anomaly_type = "isolation_forest" ∧
        a.signals = (coerce_climate_signals name sig).1 := by
  unfold check_isolation_forest_anomalies
  rcases hc : coerce_climate_signals name sig with ⟨s1, r⟩
  cases r with
  | error e => simp
  | ok u =>
    cases u
    simpa using iso_core_anomalies oracle name s1 vid st

/-! ## Claim theorems -/

/-- Claim C1 (counterexample): the very first ClimateControl message of a
vehicle, in Hot geography with CabinTemp 32 and ACStatus 0, produces no
anomaly at all and completes normally, even though the geography-context
family would produce both `high_cabin_temperature` and `ac_off_in_hot` on
that very snapshot — so families (b) and (c) are NOT evaluated on the first
message of a type, contradicting the claim. -/
theorem c1_first_message_skips_rule_families_counterexample :
    (update_vehicle_state oracle0 (init_detector fs_absent) "V1" "ClimateControl"
        climate_snap Geography.hot 100).2.1 = [] ∧
    (update_vehicle_state oracle0 (init_detector fs_absent) "V1" "ClimateControl"
        climate_snap Geography.hot 100).2.2 = Except.ok () ∧
    anomaly_types (check_geography_based_anomalies Geography.hot "V1"
        "ClimateControl" climate_snap).1 =
      ["high_cabin_temperature", "ac_off_in_hot"] :=
  ⟨rfl, rfl, rfl⟩

/-- Claim C3 (code evaluation at the failing input): when all three artifact
files exist but the EngineData artifact is corrupt, startup catches the load
failure and installs a fresh unfitted model, yet the trained check — which
only tests file existence — still reports the manager as globally trained;
the very first EngineData message then reaches prediction with the unfitted
model and raises, instead of the type re-entering Collecting. -/
theorem c3_corrupt_artifact_still_marked_trained :
    (init_detector fs_corrupt_engine).is_model_trained = true ∧
    (init_detector fs_corrupt_engine).isolation_forests.engine.fitted = false ∧
    (check_isolation_forest_anomalies oracle0 "EngineData" engine_snap "V1"
        (init_detector fs_corrupt_engine)).2.2.2 = Except.error "NotFittedError" ∧
    alookup (check_isolation_forest_anomalies oracle0 "EngineData" engine_snap "V1"
        (init_detector fs_corrupt_engine)).2.1.collected_data "EngineData" =
      some [engine_vec] :=
  ⟨rfl, rfl, rfl, rfl⟩

/-- Claim C5 (counterexample): a ClimateControl snapshot missing CabinTemp in
Snowy geography produces no anomaly, while the same rule on CabinTemp = 0
does produce `low_cabin_temperature` — so the missing value is not treated
as 0 — and the temporal family raises a KeyError on a VehicleData snapshot
missing Speed instead of completing. -/
theorem c5_missing_signal_counterexample :
    (check_geography_based_anomalies Geography.snowy "V1" "ClimateControl" []).1
      = [] ∧
    anomaly_types (check_geography_based_anomalies Geography.snowy "V1"
        "ClimateControl" [("CabinTemp", 0)]).1 = ["low_cabin_temperature"] ∧
    (check_temporal_anomalies "V1" Geography.urban
        [("Speed", 10), ("GearPosition", 1)] "VehicleData" []).2 =
      Except.error "KeyError: Speed" :=
  ⟨rfl, rfl, rfl⟩

/-- Claim C5 (amended): only the feature projection treats a missing signal
as 0; the geography-context rules substitute fixed non-zero defaults
(CabinTemp 20, ACStatus 1) and stay silent, the Highway detail lookup and
the temporal family index the snapshot directly and raise a KeyError on a
missing signal. -/
theorem c5_amended_missing_signal_handling :
    (prepare_data_for_isolation_forest "EngineData" [] = some (0, 0, 0)) ∧
    (prepare_data_for_isolation_forest "VehicleData" [] = some (0, 0, 0)) ∧
    (prepare_data_for_isolation_forest "ClimateControl" [] = some (0, 0, 0)) ∧
    (∀ (vid : String) (s : Snapshot), sGet s "CabinTemp" = none →
      (check_geography_based_anomalies Geography.snowy vid "ClimateControl" s).1
        = [] ∧
      (sGet s "ACStatus" = none →
        (check_geography_based_anomalies Geography.hot vid "ClimateControl" s).1
          = [])) ∧
    (∀ (vid : String) (geo : Geography) (ls s : Snapshot),
      sGet s "Speed" = none →
      (check_temporal_anomalies vid geo ls "VehicleData" s).2 =
        Except.error "KeyError: Speed") ∧
    (∀ (vid : String) (s : Snapshot), sGet s "Speed" = none →
      check_geography_based_anomalies Geography.highway vid "VehicleData" s =
        ([], Except.error "KeyError: Speed")) := by
  refine ⟨rfl, rfl, rfl, ?_, ?_, ?_⟩
  · intro vid s h
    constructor
    · simp [check_geography_based_anomalies, sGetD, sGet] at h ⊢
      simp [h]
      norm_num
    · intro h2
      simp [check_geography_based_anomalies, sGetD, sGet] at h h2 ⊢
      simp [h, h2]
      norm_num
  · intro vid geo ls s h
    simp only [check_temporal_anomalies]
    simp [sGet] at h
    simp [sGet, h]
  · intro vid s h
    simp [check_geography_based_anomalies, sGetD, sGet] at h ⊢
    simp [h]

/-- Witness for the C5 amended theorem at concrete inputs. -/
theorem c5_amended_witness :
    (check_geography_based_anomalies Geography.snowy "V1" "ClimateControl"
        [("FanSpeed", 2)]).1 = [] ∧
    (check_temporal_anomalies "V1" Geography.urban [] "VehicleData"
        [("GearPosition", 2)]).2 = Except.error "KeyError: Speed" :=
  ⟨(c5_amended_missing_signal_handling.2.2.2.1 "V1" [("FanSpeed", 2)] rfl).1,
   c5_amended_missing_signal_handling.2.2.2.2.1 "V1" Geography.urban []
     [("GearPosition", 2)] rfl⟩

/-- Claim C7: the expected-gear function is the stated step function of speed
(1 on [0,20], 2 on (20,40], 3 on (40,70], 4 on (70,100], 5 on (100,150],
6 above 150) and is monotone non-decreasing on all speeds. -/
theorem c7_expected_gear_step_function :
    (∀ v : ℚ, 0 ≤ v → v ≤ 20 → get_expected_gear v = 1) ∧
    (∀ v : ℚ, 20 < v → v ≤ 40 → get_expected_gear v = 2) ∧
    (∀ v : ℚ, 40 < v → v ≤ 70 → get_expected_gear v = 3) ∧
    (∀ v : ℚ, 70 < v → v ≤ 100 → get_expected_gear v = 4) ∧
    (∀ v : ℚ, 100 < v → v ≤ 150 → get_expected_gear v = 5) ∧
    (∀ v : ℚ, 150 < v → get_expected_gear v = 6) ∧
    (∀ a b : ℚ, a ≤ b → get_expected_gear a ≤ get_expected_gear b) := by
  refine ⟨?_, ?_, ?_, ?_, ?_, ?_, ?_⟩ <;> intros <;>
    unfold get_expected_gear <;> split_ifs <;>
    first | rfl | linarith

/-- Witness for C7 at concrete speeds in each band. -/
theorem c7_witness :
    get_expected_gear 10 = 1 ∧ get_expected_gear 30 = 2 ∧
    get_expected_gear 50 = 3 ∧ get_expected_gear 80 = 4 ∧
    get_expected_gear 120 = 5 ∧ get_expected_gear 200 = 6 ∧
    get_expected_gear 15 ≤ get_expected_gear 90 :=
  ⟨c7_expected_gear_step_function.1 10 (by norm_num) (by norm_num),
   c7_expected_gear_step_function.2.1 30 (by norm_num) (by norm_num),
   c7_expected_gear_step_function.2.2.1 50 (by norm_num) (by norm_num),
   c7_expected_gear_step_function.2.2.2.1 80 (by norm_num) (by norm_num),
   c7_expected_gear_step_function.2.2.2.2.1 120 (by norm_num) (by norm_num),
   c7_expected_gear_step_function.2.2.2.2.2.1 200 (by norm_num),
   c7_expected_gear_step_function.2.2.2.2.2.2 15 90 (by norm_num)⟩

/-- Claim C6: for every row of the geography/message-type table, with the
vehicle in the row's geography and the row's message type arriving, the rule
emits exactly its listed anomaly type when the row's signal crosses the
threshold and nothing from that rule otherwise, whatever the rest of the
snapshot holds. -/
theorem c6_geography_rule_table :
    (∀ (vid : String) (s : Snapshot) (v : ℚ),
      "high_speed_in_rain" ∈ anomaly_types
        (check_geography_based_anomalies Geography.rainy vid "VehicleData"
          (sSet s "Speed" v)).1 ↔ v > 70) ∧
    (∀ (vid : String) (s : Snapshot) (v : ℚ),
      "high_temperature_in_mountainous" ∈ anomaly_types
        (check_geography_based_anomalies Geography.mountainous vid "EngineData"
          (sSet s "EngineTemp" v)).1 ↔ v > 95) ∧
    (∀ (vid : String) (s : Snapshot) (v : ℚ),
      "high_speed_in_mountainous" ∈ anomaly_types
        (check_geography_based_anomalies Geography.mountainous vid "VehicleData"
          (sSet s "Speed" v)).1 ↔ v > 70) ∧
    (∀ (vid : String) (s : Snapshot) (v : ℚ),
      "high_temperature_in_hot" ∈ anomaly_types
        (check_geography_based_anomalies Geography.hot vid "EngineData"
          (sSet s "EngineTemp" v)).1 ↔ v > 100) ∧
    (∀ (vid : String) (s : Snapshot) (v : ℚ),
      "high_cabin_temperature" ∈ anomaly_types
        (check_geography_based_anomalies Geography.hot vid "ClimateControl"
          (sSet s "CabinTemp" v)).1 ↔ v > 28) ∧
    (∀ (vid : String) (s : Snapshot) (v : ℚ),
      "ac_off_in_hot" ∈ anomaly_types
        (check_geography_based_anomalies Geography.hot vid "ClimateControl"
          (sSet s "ACStatus" v)).1 ↔ v = 0) ∧
    (∀ (vid : String) (s : Snapshot) (v : ℚ),
      "high_speed_in_snow" ∈ anomaly_types
        (check_geography_based_anomalies Geography.snowy vid "VehicleData"
          (sSet s "Speed" v)).1 ↔ v > 50) ∧
    (∀ (vid : String) (s : Snapshot) (v : ℚ),
      "low_cabin_temperature" ∈ anomaly_types
        (check_geography_based_anomalies Geography.snowy vid "ClimateControl"
          (sSet s "CabinTemp" v)).1 ↔ v < 18) ∧
    (∀ (vid : String) (s : Snapshot) (v : ℚ),
      "high_speed_in_urban" ∈ anomaly_types
        (check_geography_based_anomalies Geography.urban vid "VehicleData"
          (sSet s "Speed" v)).1 ↔ v > 60) ∧
    (∀ (vid : String) (s : Snapshot) (v : ℚ),
      "high_engine_speed" ∈ anomaly_types
        (check_geography_based_anomalies Geography.urban vid "EngineData"
          (sSet s "EngineSpeed" v)).1 ↔ v > 4000) ∧
    (∀ (vid : String) (s : Snapshot) (v : ℚ),
      "low_speed_in_highway" ∈ anomaly_types
        (check_geography_based_anomalies Geography.highway vid "VehicleData"
          (sSet s "Speed" v)).1 ↔ v < 60) := by
  refine ⟨?_, ?_, ?_, ?_, ?_, ?_, ?_, ?_, ?_, ?_, ?_⟩ <;> intro vid s v
  · simp [check_geography_based_anomalies, anomaly_types, mkAnomaly, sGetD_sSet_self]
    by_cases h : (70:ℚ) < v <;> simp [h]
  · simp [check_geography_based_anomalies, anomaly_types, mkAnomaly, sGetD_sSet_self]
    by_cases h : (95:ℚ) < v <;> simp [h]
  · simp [check_geography_based_anomalies, anomaly_types, mkAnomaly, sGetD_sSet_self]
    by_cases h : (70:ℚ) < v <;> simp [h]
  · simp [check_geography_based_anomalies, anomaly_types, mkAnomaly, sGetD_sSet_self]
    by_cases h : (100:ℚ) < v <;> simp [h]
  · simp [check_geography_based_anomalies, anomaly_types, mkAnomaly, sGetD_sSet_self]
    by_cases h : (28:ℚ) < v <;>
      by_cases h2 : sGetD (sSet s "CabinTemp" v) "ACStatus" 1 = 0 <;> simp [h, h2]
  · simp [check_geography_based_anomalies, anomaly_types, mkAnomaly, sGetD_sSet_self]
    by_cases h : v = 0 <;>
      by_cases h2 : sGetD (sSet s "ACStatus" v) "CabinTemp" 20 > 28 <;> simp [h, h2]
  · simp [check_geography_based_anomalies, anomaly_types, mkAnomaly, sGetD_sSet_self]
    by_cases h : (50:ℚ) < v <;> simp [h]
  · simp [check_geography_based_anomalies, anomaly_types, mkAnomaly, sGetD_sSet_self]
    by_cases h : v < 18 <;> simp [h]
  · simp [check_geography_based_anomalies, anomaly_types, mkAnomaly, sGetD_sSet_self]
    by_cases h : (60:ℚ) < v <;> simp [h]
  · simp [check_geography_based_anomalies, anomaly_types, mkAnomaly, sGetD_sSet_self]
    by_cases h : (4000:ℚ) < v <;> simp [h]
  · simp [check_geography_based_anomalies, anomaly_types, mkAnomaly, sGetD_sSet_self,
      sGet_sSet_self]
    by_cases h : v < 60 <;> simp [h]

/-- Claim C8 (counterexample): at speed exactly 0 with gear 5 the code flags
no critical gear mismatch at all, although the claim's condition
(speed < 20 and gear ≥ 3, "including at speed equal to 0") holds there. -/
theorem c8_zero_speed_counterexample :
    "critical_gear_mismatch" ∉
      check_signal_based_anomalies [("Speed", 0), ("GearPosition", 5)]
        "VehicleData" ∧
    ((0:ℚ) < 20 ∧ 3 ≤ py_int 5) := by
  constructor
  · decide
  · refine ⟨by norm_num, ?_⟩
    unfold py_int
    norm_num

/-- Claim C8 (amended): a critical gear mismatch is flagged exactly when the
vehicle is moving (speed > 0) and either speed > 100 with gear ≤ 2 or
speed < 20 with gear ≥ 3; at speed exactly 0 (or below) the whole gear check
is skipped. -/
theorem c8_amended_critical_gear_mismatch :
    ∀ (s : Snapshot) (v g : ℚ),
      "critical_gear_mismatch" ∈
        check_signal_based_anomalies
          (sSet (sSet s "Speed" v) "GearPosition" g) "VehicleData" ↔
      (0 < v ∧ ((100 < v ∧ py_int g ≤ 2) ∨ (v < 20 ∧ 3 ≤ py_int g))) := by
  intro s v g
  have h1 : sGetD (sSet (sSet s "Speed" v) "GearPosition" g) "Speed" 0 = v := by
    rw [sGetD_sSet_ne _ _ _ _ _ (by decide), sGetD_sSet_self]
  have h2 : sGetD (sSet (sSet s "Speed" v) "GearPosition" g) "GearPosition" 1 = g :=
    sGetD_sSet_self _ _ _ _
  simp only [check_signal_based_anomalies, h1, h2]
  norm_num
  split_ifs <;> simp [*] <;> tauto

theorem prepare_known (name : String) (sig : Snapshot)
    (h : name ∈ known_message_types) :
    ∃ v, prepare_data_for_isolation_forest name sig = some v := by
  simp [known_message_types] at h
  rcases h with h | h | h <;> subst h
  · exact ⟨(sGetD sig "EngineSpeed" 0, sGetD sig "EngineTemp" 0,
      sGetD sig "BatteryLevel" 0), by simp [prepare_data_for_isolation_forest]⟩
  · exact ⟨(sGetD sig "Speed" 0, sGetD sig "GearPosition" 0,
      sGetD sig "BatteryVoltage" 0), by simp [prepare_data_for_isolation_forest]⟩
  · exact ⟨(sGetD sig "CabinTemp" 0, sGetD sig "FanSpeed" 0,
      sGetD sig "ACStatus" 0), by simp [prepare_data_for_isolation_forest]⟩

theorem ensure_vehicle_lookup (st : DetectorState) (vid name : String)
    (geo : Geography) (now : ℚ) (h : has_last st vid name = false) :
    ∃ vs0, alookup (ensure_vehicle st vid geo now).vehicle_states vid = some vs0 ∧
      alookup vs0.last_values name = none := by
  unfold has_last at h
  cases hv : alookup st.vehicle_states vid with
  | none =>
    refine ⟨⟨vid, now, [], geo⟩, ?_, rfl⟩
    simp only [ensure_vehicle, hv]
    exact alookup_append_right _ _ _ hv
  | some vs =>
    rw [hv] at h
    simp only [] at h
    cases ho : alookup vs.last_values name with
    | none =>
      refine ⟨vs, ?_, ho⟩
      simp only [ensure_vehicle, hv]
    | some l => rw [ho] at h; simp at h

theorem rule_phase_first (st1 : DetectorState) (vid name : String)
    (sig1 : Snapshot) (geo : Geography) (now : ℚ) (al : List Anomaly)
    (vs0 : VehicleState)
    (hv : alookup st1.vehicle_states vid = some vs0)
    (hlast : alookup vs0.last_values name = none) :
    rule_phase st1 vid name sig1 geo now al =
      ({ st1 with
          vehicle_states := aset
            (aset st1.vehicle_states vid { vs0 with geography := geo })
            vid
            { vs0 with
                geography := geo
                last_values := aset vs0.last_values name sig1 } },
        al, Except.ok ()) := by
  simp [rule_phase, hv, hlast]

theorem update_first_message_props (oracle : String → Vec3 → Int)
    (st : DetectorState) (vid name : String) (sig : Snapshot)
    (geo : Geography) (now : ℚ)
    (h : has_last st vid name = false) :
    (∀ a ∈ (update_vehicle_state oracle st vid name sig geo now).2.1,
      a.anomaly_type = "isolation_forest") ∧
    ((update_vehicle_state oracle st vid name sig geo now).2.2 = Except.ok () →
      ∃ vs, alookup
          (update_vehicle_state oracle st vid name sig geo now).1.vehicle_states
          vid = some vs ∧
        alookup vs.last_values name =
          some (coerce_climate_signals name sig).1) := by
  obtain ⟨vs0, hv0, hlast0⟩ := ensure_vehicle_lookup st vid name geo now h
  have hty := check_iso_anomalies oracle name sig vid (ensure_vehicle st vid geo now)
  have hvs := check_iso_vehicle_states oracle name sig vid (ensure_vehicle st vid geo now)
  have hsn := check_iso_snapshot oracle name sig vid (ensure_vehicle st vid geo now)
  rcases hr : check_isolation_forest_anomalies oracle name sig vid
      (ensure_vehicle st vid geo now) with ⟨s1, st1, al, rx⟩
  rw [hr] at hty hvs hsn
  dsimp only at hty hvs hsn
  cases rx with
  | error e =>
    unfold update_vehicle_state
    rw [hr]
    constructor
    · exact fun a ha => (hty a ha).1
    · intro hok
      simp at hok
  | ok u =>
    cases u
    unfold update_vehicle_state
    rw [hr]
    dsimp only
    rw [rule_phase_first st1 vid name s1 geo now al vs0 (by rw [hvs]; exact hv0)
      hlast0]
    constructor
    · exact fun a ha => (hty a ha).1
    · intro _
      refine ⟨_, alookup_aset_self _ _ _, ?_⟩
      dsimp only
      rw [← hsn]
      exact alookup_aset_self _ _ _

/-- Claim C4: when a vehicle has no previous snapshot of a message type, the
update emits no temporal-delta anomaly (every emitted record is an
isolation-forest record, whose type tag differs from `sudden_speed_change`
and `sudden_temperature_change`), and on normal completion the incoming
snapshot (as coerced in place) is recorded as the new last value for that
type. -/
theorem c4_first_message_never_diffed (oracle : String → Vec3 → Int)
    (st : DetectorState) (vid name : String) (sig : Snapshot)
    (geo : Geography) (now : ℚ)
    (h : has_last st vid name = false) :
    (∀ a ∈ (update_vehicle_state oracle st vid name sig geo now).2.1,
      a.anomaly_type = "isolation_forest") ∧
    ((update_vehicle_state oracle st vid name sig geo now).2.2 = Except.ok () →
      ∃ vs, alookup
          (update_vehicle_state oracle st vid name sig geo now).1.vehicle_states
          vid = some vs ∧
        alookup vs.last_values name =
          some (coerce_climate_signals name sig).1) :=
  update_first_message_props oracle st vid name sig geo now h

/-- Witness for C4: the first VehicleData message of a fresh vehicle. -/
theorem c4_first_message_witness :
    (∀ a ∈ (update_vehicle_state oracle0 (init_detector fs_absent) "V1"
        "VehicleData" [("Speed", 30)] Geography.urban 5).2.1,
      a.anomaly_type = "isolation_forest") ∧
    ((update_vehicle_state oracle0 (init_detector fs_absent) "V1" "VehicleData"
        [("Speed", 30)] Geography.urban 5).2.2 = Except.ok () →
      ∃ vs, alookup (update_vehicle_state oracle0 (init_detector fs_absent) "V1"
          "VehicleData" [("Speed", 30)] Geography.urban 5).1.vehicle_states
          "V1" = some vs ∧
        alookup vs.last_values "VehicleData" =
          some (coerce_climate_signals "VehicleData" [("Speed", 30)]).1) :=
  c4_first_message_never_diffed oracle0 (init_detector fs_absent) "V1"
    "VehicleData" [("Speed", 30)] Geography.urban 5 rfl

/-- Claim C10 (counterexample): a ClimateControl check whose snapshot lacks
ACStatus raises in the in-place coercion before reaching the buffer append,
so that call appends nothing — the append is not unconditional for every
call on a known message type. -/
theorem c10_climate_keyerror_appends_nothing :
    (check_isolation_forest_anomalies oracle0 "ClimateControl" [] "V1"
        (init_detector fs_absent)).2.2.2 = Except.error "KeyError: ACStatus" ∧
    alookup (check_isolation_forest_anomalies oracle0 "ClimateControl" [] "V1"
        (init_detector fs_absent)).2.1.collected_data "ClimateControl" = none :=
  ⟨rfl, rfl⟩

/-- Claim C10 (amended): every outlier-model check on a known message type
whose ClimateControl coercion succeeds (EngineData and VehicleData always do)
appends exactly one projected vector to that type's buffer and leaves every
other buffer untouched — whatever the trained flag is, and even if the
prediction or reporting step later fails — and the training step never
modifies the buffers, so they grow forever and are never cleared. -/
theorem c10_amended_observe_always_appends (oracle : String → Vec3 → Int)
    (name : String) (sig : Snapshot) (vid : String) (st : DetectorState)
    (hknown : name ∈ known_message_types)
    (hco : (coerce_climate_signals name sig).2 = Except.ok ()) :
    buf_len (check_isolation_forest_anomalies oracle name sig vid st).2.1 name =
      buf_len st name + 1 ∧
    (∀ other, other ≠ name →
      alookup (check_isolation_forest_anomalies oracle name sig vid
          st).2.1.collected_data other = alookup st.collected_data other) ∧
    (∀ s : DetectorState,
      (train_models_if_needed s).collected_data = s.collected_data) := by
  rcases hc : coerce_climate_signals name sig with ⟨s1, r⟩
  rw [hc] at hco
  dsimp only at hco
  subst hco
  obtain ⟨v, hv⟩ := prepare_known name s1 hknown
  have hcd : (check_isolation_forest_anomalies oracle name sig vid
      st).2.1.collected_data = append_collected st.collected_data name v := by
    unfold check_isolation_forest_anomalies
    rw [hc]
    dsimp only
    exact iso_core_collected oracle name s1 vid st v hv
  refine ⟨?_, ?_, train_collected⟩
  · rw [buf_len, buf_len, hcd, alookup_append_collected_self]
    simp
  · intro other hne
    rw [hcd]
    exact alookup_append_collected_ne _ _ _ _ hne

/-- Witness for the C10 amended theorem: one EngineData observation on a
fresh detector takes that buffer from empty to one sample. -/
theorem c10_amended_witness :
    buf_len (check_isolation_forest_anomalies oracle0 "EngineData" engine_snap
        "V1" (init_detector fs_absent)).2.1 "EngineData" =
      buf_len (init_detector fs_absent) "EngineData" + 1 :=
  (c10_amended_observe_always_appends oracle0 "EngineData" engine_snap "V1"
    (init_detector fs_absent) (by decide) rfl).1

theorem ensure_vehicle_lookup_some (st : DetectorState) (vid name : String)
    (geo : Geography) (now : ℚ) (h : has_last st vid name = true) :
    ∃ vs0 ls,
      alookup (ensure_vehicle st vid geo now).vehicle_states vid = some vs0 ∧
      alookup vs0.last_values name = some ls := by
  unfold has_last at h
  cases hv : alookup st.vehicle_states vid with
  | none => rw [hv] at h; simp at h
  | some vs =>
    rw [hv] at h
    dsimp only at h
    cases ho : alookup vs.last_values name with
    | none => rw [ho] at h; simp at h
    | some ls =>
      refine ⟨vs, ls, ?_, ho⟩
      simp only [ensure_vehicle, hv]

theorem rule_phase_last_ok (st1 : DetectorState) (vid name : String)
    (sig1 : Snapshot) (geo : Geography) (now : ℚ) (al : List Anomaly)
    (vs0 : VehicleState) (ls : Snapshot)
    (hv : alookup st1.vehicle_states vid = some vs0)
    (hlast : alookup vs0.last_values name = some ls)
    (hok : (rule_phase st1 vid name sig1 geo now al).2.2 = Except.ok ()) :
    (rule_phase st1 vid name sig1 geo now al).2.1 =
      al ++ (check_temporal_anomalies vid geo ls name sig1).1 ++
        (check_geography_based_anomalies geo vid name sig1).1 := by
  rcases ht : check_temporal_anomalies vid geo ls name sig1 with ⟨ta, rt⟩
  cases rt with
  | error e =>
    unfold rule_phase at hok
    simp only [hv, hlast, ht] at hok
    simp at hok
  | ok u =>
    cases u
    rcases hg : check_geography_based_anomalies geo vid name sig1 with ⟨ga, rg⟩
    cases rg with
    | error e =>
      unfold rule_phase at hok
      simp only [hv, hlast, ht, hg] at hok
      simp at hok
    | ok u =>
      cases u
      unfold rule_phase
      simp only [hv, hlast, ht, hg]

/-- Claim C1 (amended): the geography-context and absolute/cross-signal
families are NOT evaluated on the first message of a type — on a first
message every emitted record comes from the isolation-forest check — and
they are evaluated (together with the temporal family) exactly when a
previous snapshot of that type exists, in which case every record produced
by the geography family on the coerced snapshot is part of the update's
output. -/
theorem c1_amended_rule_families_gated_on_previous_snapshot
    (oracle : String → Vec3 → Int) (st : DetectorState) (vid name : String)
    (sig : Snapshot) (geo : Geography) (now : ℚ) :
    (has_last st vid name = false →
      ∀ a ∈ (update_vehicle_state oracle st vid name sig geo now).2.1,
        a.anomaly_type = "isolation_forest") ∧
    (has_last st vid name = true →
      (update_vehicle_state oracle st vid name sig geo now).2.2 =
        Except.ok () →
      ∀ a ∈ (check_geography_based_anomalies geo vid name
          (coerce_climate_signals name sig).1).1,
        a ∈ (update_vehicle_state oracle st vid name sig geo now).2.1) := by
  constructor
  · intro h
    exact (update_first_message_props oracle st vid name sig geo now h).1
  · intro h hok
    obtain ⟨vs0, ls, hv0, hlast0⟩ := ensure_vehicle_lookup_some st vid name geo now h
    have hvs := check_iso_vehicle_states oracle name sig vid
      (ensure_vehicle st vid geo now)
    have hsn := check_iso_snapshot oracle name sig vid
      (ensure_vehicle st vid geo now)
    rcases hr : check_isolation_forest_anomalies oracle name sig vid
        (ensure_vehicle st vid geo now) with ⟨s1, st1, al, rx⟩
    rw [hr] at hvs hsn
    dsimp only at hvs hsn
    unfold update_vehicle_state at hok ⊢
    rw [hr] at hok ⊢
    cases rx with
    | error e => simp at hok
    | ok u =>
      cases u
      dsimp only at hok ⊢
      rw [rule_phase_last_ok st1 vid name s1 geo now al vs0 ls
        (by rw [hvs]; exact hv0) hlast0 hok]
      intro a ha
      rw [← hsn] at ha
      simp [List.mem_append]
      tauto

/-- Witness for the C1 amended theorem: a fresh first message emits nothing
but isolation-forest records, and after a stored snapshot exists a rainy
high-speed geography record is part of the update's output. -/
theorem c1_amended_witness :
    (∀ a ∈ (update_vehicle_state oracle0 (init_detector fs_absent) "V1"
        "VehicleData" [("Speed", 30)] Geography.urban 5).2.1,
      a.anomaly_type = "isolation_forest") ∧
    (∀ a ∈ (check_geography_based_anomalies Geography.rainy "V1" "VehicleData"
        (coerce_climate_signals "VehicleData"
          [("Speed", 90), ("GearPosition", 1), ("BatteryVoltage", 400)]).1).1,
      a ∈ (update_vehicle_state oracle0
        (update_vehicle_state oracle0 (init_detector fs_absent) "V1"
          "VehicleData"
          [("Speed", 30), ("GearPosition", 1), ("BatteryVoltage", 400)]
          Geography.rainy 5).1
        "V1" "VehicleData"
        [("Speed", 90), ("GearPosition", 1), ("BatteryVoltage", 400)]
        Geography.rainy 6).2.1) :=
  ⟨(c1_amended_rule_families_gated_on_previous_snapshot oracle0
      (init_detector fs_absent) "V1" "VehicleData" [("Speed", 30)]
      Geography.urban 5).1 rfl,
   (c1_amended_rule_families_gated_on_previous_snapshot oracle0
      (update_vehicle_state oracle0 (init_detector fs_absent) "V1" "VehicleData"
        [("Speed", 30), ("GearPosition", 1), ("BatteryVoltage", 400)]
        Geography.rainy 5).1
      "V1" "VehicleData"
      [("Speed", 90), ("GearPosition", 1), ("BatteryVoltage", 400)]
      Geography.rainy 6).2 rfl rfl⟩

theorem temporal_anomalies_signals (vid : String) (geo : Geography)
    (ls : Snapshot) (name : String) (sig : Snapshot) :
    ∀ a ∈ (check_temporal_anomalies vid geo ls name sig).1, a.signals = sig := by
  intro a ha
  unfold check_temporal_anomalies at ha
  split_ifs at ha
  all_goals repeat' (first | (split at ha) | (split_ifs at ha))
  all_goals simp_all [mkAnomaly]

theorem geo_anomalies_signals (geo : Geography) (vid : String)
    (name : String) (sig : Snapshot) :
    ∀ a ∈ (check_geography_based_anomalies geo vid name sig).1,
      a.signals = sig := by
  intro a ha
  cases geo <;> simp only [check_geography_based_anomalies] at ha
  all_goals repeat' (first | (split at ha) | (split_ifs at ha))
  all_goals simp_all [mkAnomaly]
  all_goals rcases ha with ha | ha <;> subst ha <;> rfl

theorem ensure_vehicle_some (st : DetectorState) (vid : String)
    (geo : Geography) (now : ℚ) :
    ∃ vs0, alookup (ensure_vehicle st vid geo now).vehicle_states vid = some vs0 := by
  cases hv : alookup st.vehicle_states vid with
  | none =>
    refine ⟨⟨vid, now, [], geo⟩, ?_⟩
    simp only [ensure_vehicle, hv]
    exact alookup_append_right _ _ _ hv
  | some vs =>
    refine ⟨vs, ?_⟩
    simp only [ensure_vehicle, hv]

theorem rule_phase_last_ok_state (st1 : DetectorState) (vid name : String)
    (sig1 : Snapshot) (geo : Geography) (now : ℚ) (al : List Anomaly)
    (vs0 : VehicleState) (ls : Snapshot)
    (hv : alookup st1.vehicle_states vid = some vs0)
    (hlast : alookup vs0.last_values name = some ls)
    (hok : (rule_phase st1 vid name sig1 geo now al).2.2 = Except.ok ()) :
    alookup (rule_phase st1 vid name sig1 geo now al).1.vehicle_states vid =
      some { vs0 with
              geography := geo
              last_values := aset vs0.last_values name sig1
              last_update := now } := by
  rcases ht : check_temporal_anomalies vid geo ls name sig1 with ⟨ta, rt⟩
  cases rt with
  | error e =>
    unfold rule_phase at hok
    simp only [hv, hlast, ht] at hok
    simp at hok
  | ok u =>
    cases u
    rcases hg : check_geography_based_anomalies geo vid name sig1 with ⟨ga, rg⟩
    cases rg with
    | error e =>
      unfold rule_phase at hok
      simp only [hv, hlast, ht, hg] at hok
      simp at hok
    | ok u =>
      cases u
      unfold rule_phase
      simp only [hv, hlast, ht, hg]
      exact alookup_aset_self _ _ _

theorem update_ok_characterization (oracle : String → Vec3 → Int)
    (st : DetectorState) (vid name : String) (sig : Snapshot)
    (geo : Geography) (now : ℚ)
    (hok : (update_vehicle_state oracle st vid name sig geo now).2.2 =
      Except.ok ()) :
    (∃ vs, alookup
        (update_vehicle_state oracle st vid name sig geo now).1.vehicle_states
        vid = some vs ∧
      alookup vs.last_values name =
        some (coerce_climate_signals name sig).1) ∧
    ∀ a ∈ (update_vehicle_state oracle st vid name sig geo now).2.1,
      a.signals = (coerce_climate_signals name sig).1 := by
  obtain ⟨vs0, hv0⟩ := ensure_vehicle_some st vid geo now
  have hty := check_iso_anomalies oracle name sig vid (ensure_vehicle st vid geo now)
  have hvs := check_iso_vehicle_states oracle name sig vid
    (ensure_vehicle st vid geo now)
  have hsn := check_iso_snapshot oracle name sig vid (ensure_vehicle st vid geo now)
  rcases hr : check_isolation_forest_anomalies oracle name sig vid
      (ensure_vehicle st vid geo now) with ⟨s1, st1, al, rx⟩
  rw [hr] at hty hvs hsn
  dsimp only at hty hvs hsn
  unfold update_vehicle_state at hok ⊢
  rw [hr] at hok ⊢
  cases rx with
  | error e => simp at hok
  | ok u =>
    cases u
    dsimp only at hok ⊢
    have hv1 : alookup st1.vehicle_states vid = some vs0 := by
      rw [hvs]; exact hv0
    cases hlast : alookup vs0.last_values name with
    | none =>
      rw [rule_phase_first st1 vid name s1 geo now al vs0 hv1 hlast]
      constructor
      · refine ⟨_, alookup_aset_self _ _ _, ?_⟩
        dsimp only
        rw [← hsn]
        exact alookup_aset_self _ _ _
      · intro a haa
        exact (hty a haa).2
    | some ls =>
      constructor
      · refine ⟨_, rule_phase_last_ok_state st1 vid name s1 geo now al vs0 ls
          hv1 hlast hok, ?_⟩
        dsimp only
        rw [← hsn]
        exact alookup_aset_self _ _ _
      · intro a haa
        rw [rule_phase_last_ok st1 vid name s1 geo now al vs0 ls hv1 hlast hok]
          at haa
        simp only [List.mem_append] at haa
        rcases haa with (haa | haa) | haa
        · exact (hty a haa).2
        · rw [← hsn]
          exact temporal_anomalies_signals vid geo ls name s1 a haa
        · rw [← hsn]
          exact geo_anomalies_signals geo vid name s1 a haa

theorem coerce_with_keys (sig : Snapshot) (acv fv : ℚ)
    (ha : sGet sig "ACStatus" = some acv) (hf : sGet sig "FanSpeed" = some fv) :
    coerce_climate_signals "ClimateControl" sig =
      (sSet (sSet sig "ACStatus" (py_int_q acv)) "FanSpeed" (py_int_q fv),
        Except.ok ()) := by
  have h2 : sGet (sSet sig "ACStatus" (py_int_q acv)) "FanSpeed" = some fv := by
    rw [sGet_sSet_ne sig "FanSpeed" "ACStatus" (py_int_q acv) (by decide)]
    exact hf
  simp [coerce_climate_signals, ha, h2]

/-- Claim C9: for a ClimateControl message carrying ACStatus and FanSpeed,
the outlier-model check rewrites the caller's snapshot in place — ACStatus
and FanSpeed become their truncated-integer values while every other entry
is untouched — and on normal completion exactly that coerced snapshot is
what gets stored in the vehicle's last values for ClimateControl and what
every emitted anomaly record carries as its signals. -/
theorem c9_climate_coercion_visible_downstream (oracle : String → Vec3 → Int)
    (st : DetectorState) (vid : String) (sig : Snapshot) (geo : Geography)
    (now : ℚ) (acv fv : ℚ)
    (ha : sGet sig "ACStatus" = some acv) (hf : sGet sig "FanSpeed" = some fv)
    (hok : (update_vehicle_state oracle st vid "ClimateControl" sig geo
        now).2.2 = Except.ok ()) :
    (coerce_climate_signals "ClimateControl" sig).1 =
      sSet (sSet sig "ACStatus" (py_int_q acv)) "FanSpeed" (py_int_q fv) ∧
    sGet (coerce_climate_signals "ClimateControl" sig).1 "ACStatus" =
      some (py_int_q acv) ∧
    sGet (coerce_climate_signals "ClimateControl" sig).1 "FanSpeed" =
      some (py_int_q fv) ∧
    (∀ k, k ≠ "ACStatus" → k ≠ "FanSpeed" →
      sGet (coerce_climate_signals "ClimateControl" sig).1 k = sGet sig k) ∧
    (∃ vs, alookup (update_vehicle_state oracle st vid "ClimateControl" sig geo
        now).1.vehicle_states vid = some vs ∧
      alookup vs.last_values "ClimateControl" =
        some (coerce_climate_signals "ClimateControl" sig).1) ∧
    (∀ a ∈ (update_vehicle_state oracle st vid "ClimateControl" sig geo
        now).2.1,
      a.signals = (coerce_climate_signals "ClimateControl" sig).1) := by
  have hco := coerce_with_keys sig acv fv ha hf
  have hchar := update_ok_characterization oracle st vid "ClimateControl" sig
    geo now hok
  refine ⟨by rw [hco], ?_, ?_, ?_, hchar.1, hchar.2⟩
  · rw [hco]
    dsimp only
    rw [sGet_sSet_ne _ _ _ _ (by decide)]
    exact sGet_sSet_self _ _ _
  · rw [hco]
    dsimp only
    exact sGet_sSet_self _ _ _
  · intro k hk1 hk2
    rw [hco]
    dsimp only
    rw [sGet_sSet_ne _ _ _ _ hk2, sGet_sSet_ne _ _ _ _ hk1]

/-- Witness for C9: a first ClimateControl message with fractional ACStatus
and FanSpeed values on a fresh detector. -/
theorem c9_witness :
    (coerce_climate_signals "ClimateControl"
        [("CabinTemp", 22), ("ACStatus", 1.7), ("FanSpeed", 2.9)]).1 =
      sSet (sSet [("CabinTemp", 22), ("ACStatus", 1.7), ("FanSpeed", 2.9)]
          "ACStatus" (py_int_q 1.7)) "FanSpeed" (py_int_q 2.9) ∧
    sGet (coerce_climate_signals "ClimateControl"
        [("CabinTemp", 22), ("ACStatus", 1.7), ("FanSpeed", 2.9)]).1 "ACStatus" =
      some (py_int_q 1.7) ∧
    sGet (coerce_climate_signals "ClimateControl"
        [("CabinTemp", 22), ("ACStatus", 1.7), ("FanSpeed", 2.9)]).1 "FanSpeed" =
      some (py_int_q 2.9) ∧
    (∀ k, k ≠ "ACStatus" → k ≠ "FanSpeed" →
      sGet (coerce_climate_signals "ClimateControl"
        [("CabinTemp", 22), ("ACStatus", 1.7), ("FanSpeed", 2.9)]).1 k =
      sGet [("CabinTemp", 22), ("ACStatus", 1.7), ("FanSpeed", 2.9)] k) ∧
    (∃ vs, alookup (update_vehicle_state oracle0 (init_detector fs_absent) "V1"
        "ClimateControl" [("CabinTemp", 22), ("ACStatus", 1.7), ("FanSpeed", 2.9)]
        Geography.urban 7).1.vehicle_states "V1" = some vs ∧
      alookup vs.last_values "ClimateControl" =
        some (coerce_climate_signals "ClimateControl"
          [("CabinTemp", 22), ("ACStatus", 1.7), ("FanSpeed", 2.9)]).1) ∧
    (∀ a ∈ (update_vehicle_state oracle0 (init_detector fs_absent) "V1"
        "ClimateControl" [("CabinTemp", 22), ("ACStatus", 1.7), ("FanSpeed", 2.9)]
        Geography.urban 7).2.1,
      a.signals = (coerce_climate_signals "ClimateControl"
        [("CabinTemp", 22), ("ACStatus", 1.7), ("FanSpeed", 2.9)]).1) :=
  c9_climate_coercion_visible_downstream oracle0 (init_detector fs_absent) "V1"
    [("CabinTemp", 22), ("ACStatus", 1.7), ("FanSpeed", 2.9)] Geography.urban 7
    1.7 2.9 rfl rfl rfl

/-- Closed form of the detector state after `k` EngineData-only observations,
for `1 ≤ k ≤ 499` (collecting, nothing trained). -/
def mk_engine_state (k : ℕ) : DetectorState :=
  { vehicle_states := []
    collected_data := [("EngineData", List.replicate k engine_vec)]
    isolation_forests := initialize_models fs_absent
    is_model_trained := false
    fs := fs_absent }

theorem engine_step (k : ℕ) (hk : k + 1 ≤ 499) :
    (check_isolation_forest_anomalies oracle0 "EngineData" engine_snap "V1"
      (mk_engine_state k)).2.1 = mk_engine_state (k + 1) := by
  have hlen : ¬ (min_samples_for_training ≤ k + 1) := by
    simp only [min_samples_for_training]
    omega
  unfold check_isolation_forest_anomalies
  rw [show coerce_climate_signals "EngineData" engine_snap =
    (engine_snap, Except.ok ()) from rfl]
  dsimp only
  rw [iso_core_state]
  rw [show prepare_data_for_isolation_forest "EngineData" engine_snap =
    some engine_vec from rfl]
  dsimp only
  have happ : append_collected (mk_engine_state k).collected_data "EngineData"
      engine_vec = [("EngineData", List.replicate (k + 1) engine_vec)] := by
    simp [mk_engine_state, append_collected, alookup, aset,
      List.replicate_succ']
  rw [happ]
  unfold train_models_if_needed
  simp [mk_engine_state, hlen]

theorem engine_obs_closed : ∀ k : ℕ, 1 ≤ k → k ≤ 499 →
    engine_obs k = mk_engine_state k := by
  intro k
  induction k with
  | zero => intro h _; exact absurd h (by omega)
  | succ n ih =>
    intro _ h2
    by_cases hn : n = 0
    · subst hn; rfl
    · show (check_isolation_forest_anomalies oracle0 "EngineData" engine_snap
        "V1" (engine_obs n)).2.1 = mk_engine_state (n + 1)
      rw [ih (by omega) (by omega)]
      exact engine_step n (by omega)

theorem engine_train_step (l : List Vec3)
    (hl : min_samples_for_training ≤ l.length + 1) :
    (check_isolation_forest_anomalies oracle0 "EngineData" engine_snap "V1"
      { vehicle_states := []
        collected_data := [("EngineData", l)]
        isolation_forests := initialize_models fs_absent
        is_model_trained := false
        fs := fs_absent }).2.1 =
      { vehicle_states := []
        collected_data := [("EngineData", l ++ [engine_vec])]
        isolation_forests := ⟨⟨true⟩, ⟨false⟩, ⟨false⟩⟩
        is_model_trained := true
        fs := ⟨ArtifactState.file true, ArtifactState.file false,
          ArtifactState.file false⟩ } := by
  unfold check_isolation_forest_anomalies
  rw [show coerce_climate_signals "EngineData" engine_snap =
    (engine_snap, Except.ok ()) from rfl]
  dsimp only
  rw [iso_core_state]
  rw [show prepare_data_for_isolation_forest "EngineData" engine_snap =
    some engine_vec from rfl]
  dsimp only
  have happ : append_collected [("EngineData", l)] "EngineData" engine_vec =
      [("EngineData", l ++ [engine_vec])] := by
    simp [append_collected, alookup, aset]
  rw [happ]
  unfold train_models_if_needed
  simp only [List.all_cons, List.all_nil, List.length_append, List.length_cons,
    List.length_nil, Bool.and_true]
  rw [if_neg (by simp)]
  rw [if_pos (by simp [hl])]
  simp [fit_collected, set_model_fitted, save_models, initialize_models,
    fs_absent, get_model]

theorem engine_obs_500 :
    engine_obs 500 =
      { vehicle_states := []
        collected_data :=
          [("EngineData", List.replicate 499 engine_vec ++ [engine_vec])]
        isolation_forests := ⟨⟨true⟩, ⟨false⟩, ⟨false⟩⟩
        is_model_trained := true
        fs := ⟨ArtifactState.file true, ArtifactState.file false,
          ArtifactState.file false⟩ } := by
  have h499 := engine_obs_closed 499 (by norm_num) (by norm_num)
  show (check_isolation_forest_anomalies oracle0 "EngineData" engine_snap "V1"
    (engine_obs 499)).2.1 = _
  rw [h499]
  exact engine_train_step (List.replicate 499 engine_vec)
    (by rw [List.length_replicate]; norm_num [min_samples_for_training])

/-- Claim C2 (counterexample): feeding 500 EngineData messages — and nothing
else — to a fresh detector flips the manager to globally Trained at the
500th observation, although the VehicleData and ClimateControl buffers do
not even exist and their models were never fitted: the training trigger only
inspects the buffers of types observed so far. -/
theorem c2_single_type_training_counterexample :
    (engine_obs 499).is_model_trained = false ∧
    (engine_obs 500).is_model_trained = true ∧
    alookup (engine_obs 500).collected_data "VehicleData" = none ∧
    alookup (engine_obs 500).collected_data "ClimateControl" = none ∧
    (engine_obs 500).isolation_forests.vehicle.fitted = false ∧
    (engine_obs 500).isolation_forests.climate.fitted = false := by
  have h499 := engine_obs_closed 499 (by norm_num) (by norm_num)
  have h500 := engine_obs_500
  rw [h499, h500]
  refine ⟨rfl, rfl, ?_, ?_, rfl, rfl⟩ <;> simp [alookup]

theorem get_model_fitted_mono (m : ModelSet) (n name : String)
    (h : (get_model m name).fitted = true) :
    (get_model (set_model_fitted m n) name).fitted = true := by
  unfold get_model set_model_fitted at *
  split_ifs at * <;> simp_all

theorem fit_collected_mono (names : List String) (m : ModelSet) (name : String)
    (h : (get_model m name).fitted = true) :
    (get_model (fit_collected m names) name).fitted = true := by
  induction names generalizing m with
  | nil => exact h
  | cons x xs ih => exact ih _ (get_model_fitted_mono m x name h)

theorem fit_collected_fits (names : List String) (m : ModelSet) (name : String)
    (hmem : name ∈ names) (hknown : name ∈ known_message_types) :
    (get_model (fit_collected m names) name).fitted = true := by
  induction names generalizing m with
  | nil => simp at hmem
  | cons x xs ih =>
    rcases List.mem_cons.mp hmem with h | h
    · subst h
      refine fit_collected_mono xs _ name ?_
      simp [known_message_types] at hknown
      rcases hknown with h | h | h <;> subst h <;>
        simp [set_model_fitted, get_model]
    · exact ih (set_model_fitted m x) h

/-- Claim C2 (amended): the manager trains at most once — once the trained
flag is set the training step is the identity — and, from an untrained
state, the transition to Trained fires exactly when every message type
*observed so far* (every buffer present in the collection map) has at least
500 samples; at that transition artifact files exist for all three types but
only the models of observed types are fitted. -/
theorem c2_amended_training_transition (st : DetectorState)
    (hkeys : ∀ p ∈ st.collected_data, p.1 ∈ known_message_types) :
    (st.is_model_trained = true → train_models_if_needed st = st) ∧
    (st.is_model_trained = false →
      ((train_models_if_needed st).is_model_trained = true ↔
        st.collected_data.all
          (fun p => decide (min_samples_for_training ≤ p.2.length)) = true) ∧
      (st.collected_data.all
          (fun p => decide (min_samples_for_training ≤ p.2.length)) = true →
        (train_models_if_needed st).fs.engine ≠ ArtifactState.absent ∧
        (train_models_if_needed st).fs.vehicle ≠ ArtifactState.absent ∧
        (train_models_if_needed st).fs.climate ≠ ArtifactState.absent ∧
        ∀ p ∈ st.collected_data,
          (get_model (train_models_if_needed st).isolation_forests p.1).fitted =
            true)) := by
  constructor
  · intro h
    unfold train_models_if_needed
    rw [if_pos h]
  · intro h
    constructor
    · constructor
      · intro htr
        by_contra hall
        unfold train_models_if_needed at htr
        rw [if_neg (by rw [h]; exact Bool.false_ne_true), if_neg hall] at htr
        rw [h] at htr
        exact Bool.false_ne_true htr
      · intro hall
        unfold train_models_if_needed
        rw [if_neg (by rw [h]; exact Bool.false_ne_true), if_pos hall]
    · intro hall
      unfold train_models_if_needed
      rw [if_neg (by rw [h]; exact Bool.false_ne_true), if_pos hall]
      refine ⟨by simp [save_models], by simp [save_models],
        by simp [save_models], ?_⟩
      intro p hp
      exact fit_collected_fits (st.collected_data.map (·.1)) st.isolation_forests
        p.1 (List.mem_map_of_mem _ hp) (hkeys p hp)

/-- Witness for the C2 amended theorem: an untrained state whose only buffer
(EngineData) holds exactly 500 samples trains, fits that model, and writes
all three artifacts. -/
theorem c2_amended_witness :
    ((train_models_if_needed (mk_engine_state 500)).is_model_trained = true ↔
      (mk_engine_state 500).collected_data.all
        (fun p => decide (min_samples_for_training ≤ p.2.length)) = true) ∧
    (train_models_if_needed (mk_engine_state 500)).fs.engine ≠
      ArtifactState.absent ∧
    (get_model (train_models_if_needed (mk_engine_state 500)).isolation_forests
      "EngineData").fitted = true := by
  have hkeys : ∀ p ∈ (mk_engine_state 500).collected_data,
      p.1 ∈ known_message_types := by
    intro p hp
    dsimp only [mk_engine_state] at hp
    rw [List.mem_singleton] at hp
    subst hp
    simp [known_message_types]
  have h := c2_amended_training_transition (mk_engine_state 500) hkeys
  have hall : (mk_engine_state 500).collected_data.all
      (fun p => decide (min_samples_for_training ≤ p.2.length)) = true := by
    dsimp only [mk_engine_state]
    rw [List.all_cons, List.all_nil, Bool.and_true]
    simp only [List.length_replicate]
    norm_num [min_samples_for_training]
  have h2 := h.2 rfl
  refine ⟨h2.1, (h2.2 hall).1, ?_⟩
  have hfit := (h2.2 hall).2.2.2 ("EngineData", List.replicate 500 engine_vec)
    (by dsimp only [mk_engine_state]; exact List.mem_singleton.mpr rfl)
  exact hfit
